import Mathlib

/-!
Verification of the storage HTTP adapter in `pkg/router/storage.go` of the
volume-manager repository.

The adapter binds an incoming JSON body or path parameter, delegates to the
`server.StorageActions` interface, and maps the result to an HTTP response.
We embed each handler as a pure function of
  * the outcome of body binding (`Except String β`, mirroring
    `ctx.ShouldBindWith(&req, binding.JSON)`),
  * the action layer (`StorageActions`, a record of functions), and
  * the error translator (`TranslateValidate`).
Each handler returns the HTTP response it writes together with the ordered
list of action-layer calls it performs; this trace is the adapter-level
observation of domain effects and invocation order.
-/

namespace VolumeRouter

/-- Modelled from the spec: the `model.Storage` record from `pkg/models`
(not among the provided sources) — a name (string identifier) and a
numeric size (capacity). -/
structure Storage where
  name : String
  size : Int
deriving DecidableEq, Repr

/-- Modelled from the spec: the `model.UpdateStorageRequest` payload from
`pkg/models` (not among the provided sources) — a partial update payload;
the target storage is identified by the path parameter, not by this body. -/
structure UpdateStorageRequest where
  size : Option Int
deriving DecidableEq, Repr

/-- Modelled from the spec: one entry of the `kubeClientModel.ImportResponse`
lists — an identifier, an optional secondary field (namespace, here `ns`),
and (for failures) an error message. -/
structure ImportResult where
  name : String
  ns : String
  message : String
deriving DecidableEq, Repr

/-- Modelled from the spec: `kubeClientModel.ImportResponse` — two ordered
lists, imported results and failed results, built incrementally per input
item. -/
structure ImportResponse where
  imported : List ImportResult
  failed : List ImportResult
deriving DecidableEq, Repr

/-- Modelled from the spec: `ImportResponse.ImportSuccessful(name, ns)`
appends a success entry (empty message) to the `imported` list, keeping
input order. -/
def ImportResponse.importSuccessful (resp : ImportResponse) (name ns : String) :
    ImportResponse :=
  { resp with imported := resp.imported ++ [{ name := name, ns := ns, message := "" }] }

/-- Modelled from the spec: `ImportResponse.ImportFailed(name, ns, message)`
appends a failure entry to the `failed` list, keeping input order. -/
def ImportResponse.importFailed (resp : ImportResponse) (name ns message : String) :
    ImportResponse :=
  { resp with failed := resp.failed ++ [{ name := name, ns := ns, message := message }] }

/-- The `server.StorageActions` interface: the abstract action layer the
adapter delegates to. Errors are represented by their message strings
(`err.Error()`). The request context is opaque to this layer and is
dropped. -/
structure StorageActions where
  createStorage : Storage → Except String Unit
  getStorages : Except String (List Storage)
  updateStorage : String → UpdateStorageRequest → Except String Unit
  deleteStorage : String → Except String Unit

/-- Bodies the adapter can write: empty (`ctx.Status`), a translated error
body (`ctx.AbortWithStatusJSON`), a storage list, or an import report. -/
inductive HTTPBody where
  | empty : HTTPBody
  | err : String → HTTPBody
  | storages : List Storage → HTTPBody
  | importResp : ImportResponse → HTTPBody
deriving DecidableEq, Repr

/-- An HTTP response: status code and body. -/
structure Response where
  status : Nat
  body : HTTPBody
deriving DecidableEq, Repr

/-- One invocation of the action layer, as observable from this adapter. -/
inductive ActionCall where
  | create : Storage → ActionCall
  | getAll : ActionCall
  | update : String → UpdateStorageRequest → ActionCall
  | delete : String → ActionCall
deriving DecidableEq, Repr

/-- The `TranslateValidate` collaborator. `handleError` is the shared
domain-error translator (`HandleError`), kept fully abstract as a
status/body function. -/
structure TranslateValidate where
  validationBody : String → String
  handleError : String → Nat × String

/-- Modelled from the spec: `TranslateValidate.BadRequest` (from this
repository's router package, not among the provided sources) — a malformed
body is always surfaced as 400 with a structured validation error. -/
def TranslateValidate.badRequest (tv : TranslateValidate) (e : String) :
    Nat × String :=
  (400, tv.validationBody e)

/-- `createStorageHandler`: bind the body as a `Storage`; on bind failure
abort with `BadRequest`; otherwise call `CreateStorage`, aborting with the
translated error on failure, and reply 201 with empty body on success. -/
def createStorageHandler (tv : TranslateValidate) (acts : StorageActions)
    (body : Except String Storage) : Response × List ActionCall :=
  match body with
  | .error e => ({ status := (tv.badRequest e).1, body := .err (tv.badRequest e).2 }, [])
  | .ok req =>
    match acts.createStorage req with
    | .error err =>
      ({ status := (tv.handleError err).1, body := .err (tv.handleError err).2 },
       [.create req])
    | .ok _ => ({ status := 201, body := .empty }, [.create req])

/-- The body of the `for _, r := range req` loop in `importStoragesHandler`,
iterated over the remaining names: build a `Storage` with the fixed size
100, call `CreateStorage`, and record the item in `failed` (with the error
message) or `imported`; then continue with the rest. Also returns the
action calls made, in order. -/
def importLoop (acts : StorageActions) (resp : ImportResponse) :
    List String → ImportResponse × List ActionCall
  | [] => (resp, [])
  | r :: rest =>
    let store : Storage := { name := r, size := 100 }
    let resp2 :=
      match acts.createStorage store with
      | .error err => resp.importFailed r "" err
      | .ok _ => resp.importSuccessful r ""
    let tail := importLoop acts resp2 rest
    (tail.1, .create store :: tail.2)

/-- `importStoragesHandler`: bind the body as a list of strings; on bind
failure abort with `BadRequest`; otherwise run the import loop starting
from the explicitly initialized empty `ImportResponse` and reply 202 with
the aggregated report. -/
def importStoragesHandler (tv : TranslateValidate) (acts : StorageActions)
    (body : Except String (List String)) : Response × List ActionCall :=
  match body with
  | .error e => ({ status := (tv.badRequest e).1, body := .err (tv.badRequest e).2 }, [])
  | .ok req =>
    let out := importLoop acts { imported := [], failed := [] } req
    ({ status := 202, body := .importResp out.1 }, out.2)

/-- `getStoragesHandler`: call `GetStorages`; on failure abort with the
translated error; on success reply 200 with the returned list. -/
def getStoragesHandler (tv : TranslateValidate) (acts : StorageActions) :
    Response × List ActionCall :=
  match acts.getStorages with
  | .error err =>
    ({ status := (tv.handleError err).1, body := .err (tv.handleError err).2 }, [.getAll])
  | .ok storages => ({ status := 200, body := .storages storages }, [.getAll])

/-- `updateStorageHandler`: bind the body as an `UpdateStorageRequest`; on
bind failure abort with `BadRequest`; otherwise call `UpdateStorage` with
the `name` path parameter and the bound body, aborting with the translated
error on failure, and reply 202 with empty body on success. -/
def updateStorageHandler (tv : TranslateValidate) (acts : StorageActions)
    (pathName : String) (body : Except String UpdateStorageRequest) :
    Response × List ActionCall :=
  match body with
  | .error e => ({ status := (tv.badRequest e).1, body := .err (tv.badRequest e).2 }, [])
  | .ok req =>
    match acts.updateStorage pathName req with
    | .error err =>
      ({ status := (tv.handleError err).1, body := .err (tv.handleError err).2 },
       [.update pathName req])
    | .ok _ => ({ status := 202, body := .empty }, [.update pathName req])

/-- `deleteStorageHandler`: call `DeleteStorage` with the `name` path
parameter, aborting with the translated error on failure, and reply 202
with empty body on success. -/
def deleteStorageHandler (tv : TranslateValidate) (acts : StorageActions)
    (pathName : String) : Response × List ActionCall :=
  match acts.deleteStorage pathName with
  | .error err =>
    ({ status := (tv.handleError err).1, body := .err (tv.handleError err).2 },
     [.delete pathName])
  | .ok _ => ({ status := 202, body := .empty }, [.delete pathName])

/-- Whether `CreateStorage` succeeds on the storage record the import loop
builds for name `r` (name `r`, size 100). -/
def createOk (acts : StorageActions) (r : String) : Bool :=
  match acts.createStorage { name := r, size := 100 } with
  | .ok _ => true
  | .error _ => false

/-- The error message `CreateStorage` returns on the storage record that
the bulk-import loop builds for name `r` (empty if it succeeds). -/
def createErr (acts : StorageActions) (r : String) : String :=
  match acts.createStorage { name := r, size := 100 } with
  | .ok _ => ""
  | .error e => e

/-- A concrete translator instance used to evaluate the handlers. -/
def demoTv : TranslateValidate where
  validationBody := fun e => "validation error: " ++ e
  handleError := fun e => (500, e)

/-- A concrete action layer that accepts every call. -/
def okActs : StorageActions where
  createStorage := fun _ => .ok ()
  getStorages := .ok [{ name := "a", size := 1 }]
  updateStorage := fun _ _ => .ok ()
  deleteStorage := fun _ => .ok ()

/-- A concrete action layer that rejects every call. -/
def failActs : StorageActions where
  createStorage := fun _ => .error "quota exceeded"
  getStorages := .error "backend down"
  updateStorage := fun _ _ => .error "not found"
  deleteStorage := fun _ => .error "not found"

/-- The action layer of the spec's worked example: it accepts the storage
named "vol1" and rejects every other one with "quota exceeded". -/
def exampleActs : StorageActions where
  createStorage := fun s => if s.name = "vol1" then .ok () else .error "quota exceeded"
  getStorages := .ok []
  updateStorage := fun _ _ => .ok ()
  deleteStorage := fun _ => .ok ()

/-- Closed form of the import loop: starting from accumulator `resp`, it
appends one success record per accepted name and one failure record per
rejected name, both in input order, and invokes `CreateStorage` exactly
once per name on the record with size 100. -/
theorem importLoop_eq (acts : StorageActions) (resp : ImportResponse)
    (req : List String) :
    importLoop acts resp req =
      ({ imported := resp.imported ++ (req.filter (createOk acts)).map
           (fun r => { name := r, ns := "", message := "" }),
         failed := resp.failed ++ (req.filter (fun r => !createOk acts r)).map
           (fun r => { name := r, ns := "", message := createErr acts r }) },
       req.map (fun r => .create { name := r, size := 100 })) := by
  induction req generalizing resp with
  | nil => simp [importLoop]
  | cons r rest ih =>
    cases h : acts.createStorage { name := r, size := 100 } with
    | error e =>
      simp [importLoop, h, ih, ImportResponse.importFailed, createOk, createErr,
        List.filter_cons]
    | ok u =>
      simp [importLoop, h, ih, ImportResponse.importSuccessful, createOk, createErr,
        List.filter_cons]

/-- Mapping `ImportResult.name` over the records that `importLoop_eq`
produces recovers the underlying filtered name list. -/
theorem map_name_mk (l : List String) (msg : String → String) :
    (l.map (fun r => ({ name := r, ns := "", message := msg r } : ImportResult))).map
      ImportResult.name = l := by
  simp only [List.map_map]
  exact List.map_id'' (fun r => rfl) l

/-- C1 counterexample: for a request whose body fails to bind as a JSON
array of strings, `importStoragesHandler` aborts with the 400 validation
error rather than responding 202, so the handler does not respond 202 for
every request. -/
theorem importMalformedNot202 :
    (importStoragesHandler demoTv okActs (.error "invalid body")).1.status ≠ 202 := by
  decide

/-- C1 (amended): for every request whose body binds as a list of strings,
the bulk-import handler responds 202 with an aggregated `ImportResponse`
and never a request-level error status, regardless of any individual item
failing. -/
theorem importBound202 (tv : TranslateValidate) (acts : StorageActions)
    (req : List String) :
    (importStoragesHandler tv acts (.ok req)).1.status = 202 ∧
    ∃ resp, (importStoragesHandler tv acts (.ok req)).1.body = .importResp resp :=
  ⟨rfl, ⟨_, rfl⟩⟩

/-- C2: for every input list of length N, the import response's imported
and failed list lengths sum to exactly N, and the names of the two lists
taken together are a permutation of the input list, so each processed
input item appears in exactly one of the two lists (with multiplicity). -/
theorem importPartition (tv : TranslateValidate) (acts : StorageActions)
    (req : List String) :
    ∃ resp calls,
      importStoragesHandler tv acts (.ok req) =
        ({ status := 202, body := .importResp resp }, calls) ∧
      resp.imported.length + resp.failed.length = req.length ∧
      (resp.imported.map ImportResult.name ++ resp.failed.map ImportResult.name).Perm
        req := by
  refine ⟨(importLoop acts { imported := [], failed := [] } req).1,
    (importLoop acts { imported := [], failed := [] } req).2, rfl, ?_⟩
  rw [importLoop_eq]
  have himp := map_name_mk (req.filter (createOk acts)) (fun _ => "")
  have hfail := map_name_mk (req.filter (fun r => !createOk acts r)) (createErr acts)
  have hperm := List.filter_append_perm (createOk acts) req
  refine ⟨?_, ?_⟩
  · simpa [List.length_append] using hperm.length_eq
  · simpa [himp, hfail] using hperm

/-- C3: for every name in the import request, the handler builds a Storage
record with that name and the fixed default size 100 and invokes the
create action on it; a failing item is recorded as (name, error message)
in the failed list and a succeeding one as its name in the imported list.
In particular, for input ["vol1", "vol2"] against an action layer that
accepts "vol1" and rejects "vol2" with "quota exceeded", the response is
202 with vol1 imported and (vol2, "quota exceeded") failed. -/
theorem importItemRecords :
    (∀ (tv : TranslateValidate) (acts : StorageActions) (req : List String),
      importStoragesHandler tv acts (.ok req) =
        ({ status := 202,
           body := .importResp
             { imported := (req.filter (createOk acts)).map
                 (fun r => { name := r, ns := "", message := "" }),
               failed := (req.filter (fun r => !createOk acts r)).map
                 (fun r => { name := r, ns := "", message := createErr acts r }) } },
         req.map (fun r => ActionCall.create { name := r, size := 100 }))) ∧
    importStoragesHandler demoTv exampleActs (.ok ["vol1", "vol2"]) =
      ({ status := 202,
         body := .importResp
           { imported := [{ name := "vol1", ns := "", message := "" }],
             failed := [{ name := "vol2", ns := "", message := "quota exceeded" }] } },
       [ActionCall.create { name := "vol1", size := 100 },
        ActionCall.create { name := "vol2", size := 100 }]) := by
  constructor
  · intro tv acts req
    simp [importStoragesHandler, importLoop_eq]
  · rfl

/-- C4: the import handler invokes the create action once per input item,
in exactly the input-list order (so a failure on one item never aborts the
processing of later items), and the entries of both response lists occur
in input order: their name sequences are order-preserving sublists of the
input list. -/
theorem importOrder (tv : TranslateValidate) (acts : StorageActions)
    (req : List String) :
    ∃ resp,
      importStoragesHandler tv acts (.ok req) =
        ({ status := 202, body := .importResp resp },
         req.map (fun r => ActionCall.create { name := r, size := 100 })) ∧
      List.Sublist (resp.imported.map ImportResult.name) req ∧
      List.Sublist (resp.failed.map ImportResult.name) req := by
  refine ⟨(importLoop acts { imported := [], failed := [] } req).1, ?_, ?_, ?_⟩
  · simp [importStoragesHandler, importLoop_eq]
  · rw [importLoop_eq]
    simp only [List.nil_append]
    rw [map_name_mk]
    exact List.filter_sublist req
  · rw [importLoop_eq]
    simp only [List.nil_append]
    rw [map_name_mk]
    exact List.filter_sublist req

/-- C10: on the empty import list the handler responds 202 with both
response lists explicitly initialized to empty lists and the create action
never invoked; moreover every record put into either list carries the
empty string in the optional secondary (namespace) field. -/
theorem importEmptyInit (tv : TranslateValidate) (acts : StorageActions) :
    (importStoragesHandler tv acts (.ok []) =
      ({ status := 202, body := .importResp { imported := [], failed := [] } }, [])) ∧
    ∀ (req : List String) (resp : ImportResponse) (calls : List ActionCall)
      (res : ImportResult),
      importStoragesHandler tv acts (.ok req) =
        ({ status := 202, body := .importResp resp }, calls) →
      (res ∈ resp.imported ∨ res ∈ resp.failed) → res.ns = "" := by
  refine ⟨rfl, ?_⟩
  intro req resp calls res heq hmem
  have hresp : resp = (importLoop acts { imported := [], failed := [] } req).1 := by
    have := congrArg (fun out => out.1.body) heq
    simpa [importStoragesHandler] using this.symm
  subst hresp
  rw [importLoop_eq] at hmem
  rcases hmem with h | h <;> simp at h <;>
    obtain ⟨r, -, rfl⟩ := h <;> rfl

/-- C10 witness: the empty-list clause and the secondary-field clause of
`importEmptyInit`, instantiated at a concrete translator, action layer and
one-element import. -/
theorem importEmptyInitApp :
    (importStoragesHandler demoTv okActs (.ok []) =
      ({ status := 202, body := .importResp { imported := [], failed := [] } }, [])) ∧
    ImportResult.ns { name := "vol1", ns := "", message := "" } = "" :=
  ⟨(importEmptyInit demoTv okActs).1,
   (importEmptyInit demoTv okActs).2 ["vol1"]
     { imported := [{ name := "vol1", ns := "", message := "" }], failed := [] }
     [ActionCall.create { name := "vol1", size := 100 }]
     { name := "vol1", ns := "", message := "" } rfl (by simp)⟩

/-- C5: for every body that fails to bind against the expected shape, the
create handler and the update handler respond 400 with the structured
validation-error body and make no action-layer call at all. -/
theorem malformedBody400 (tv : TranslateValidate) (acts : StorageActions)
    (e : String) (pathName : String) :
    createStorageHandler tv acts (.error e) =
      ({ status := 400, body := .err (tv.validationBody e) }, []) ∧
    updateStorageHandler tv acts pathName (.error e) =
      ({ status := 400, body := .err (tv.validationBody e) }, []) :=
  ⟨rfl, rfl⟩

/-- C6: for a well-formed create body, the create action is invoked exactly
once with exactly the parsed record; if it succeeds the handler responds
201 with an empty body, and if it fails the status/body pair is the one
produced by the shared error translator. -/
theorem createHandlerSpec (tv : TranslateValidate) (acts : StorageActions)
    (req : Storage) :
    ((createStorageHandler tv acts (.ok req)).2 = [ActionCall.create req]) ∧
    (acts.createStorage req = .ok () →
      createStorageHandler tv acts (.ok req) =
        ({ status := 201, body := .empty }, [ActionCall.create req])) ∧
    ∀ e, acts.createStorage req = .error e →
      createStorageHandler tv acts (.ok req) =
        ({ status := (tv.handleError e).1, body := .err (tv.handleError e).2 },
         [ActionCall.create req]) := by
  refine ⟨?_, ?_, ?_⟩
  · cases h : acts.createStorage req <;> simp [createStorageHandler, h]
  · intro h; simp [createStorageHandler, h]
  · intro e h; simp [createStorageHandler, h]

/-- C6 witness: `createHandlerSpec` at a concrete translator, an
all-accepting action layer and a concrete record. -/
theorem createHandlerSpecApp :
    createStorageHandler demoTv okActs (.ok { name := "v", size := 1 }) =
      ({ status := 201, body := .empty },
       [ActionCall.create { name := "v", size := 1 }]) :=
  (createHandlerSpec demoTv okActs { name := "v", size := 1 }).2.1 rfl

/-- C7: the name handed to the update and delete actions is always the one
extracted from the path parameter, whatever the request body holds; on
action success both handlers respond 202 with an empty body, and on action
failure the response is the translator's status/body pair. -/
theorem updateDeletePathTarget (tv : TranslateValidate) (acts : StorageActions)
    (pathName : String) (req : UpdateStorageRequest) :
    ((updateStorageHandler tv acts pathName (.ok req)).2 =
      [ActionCall.update pathName req]) ∧
    ((deleteStorageHandler tv acts pathName).2 = [ActionCall.delete pathName]) ∧
    (acts.updateStorage pathName req = .ok () →
      (updateStorageHandler tv acts pathName (.ok req)).1 =
        { status := 202, body := .empty }) ∧
    (acts.deleteStorage pathName = .ok () →
      (deleteStorageHandler tv acts pathName).1 = { status := 202, body := .empty }) ∧
    (∀ e, acts.updateStorage pathName req = .error e →
      (updateStorageHandler tv acts pathName (.ok req)).1 =
        { status := (tv.handleError e).1, body := .err (tv.handleError e).2 }) ∧
    ∀ e, acts.deleteStorage pathName = .error e →
      (deleteStorageHandler tv acts pathName).1 =
        { status := (tv.handleError e).1, body := .err (tv.handleError e).2 } := by
  refine ⟨?_, ?_, ?_, ?_, ?_, ?_⟩
  · cases h : acts.updateStorage pathName req <;> simp [updateStorageHandler, h]
  · cases h : acts.deleteStorage pathName <;> simp [deleteStorageHandler, h]
  · intro h; simp [updateStorageHandler, h]
  · intro h; simp [deleteStorageHandler, h]
  · intro e h; simp [updateStorageHandler, h]
  · intro e h; simp [deleteStorageHandler, h]

/-- C7 witness: `updateDeletePathTarget` at a concrete translator, an
all-accepting action layer, the path name "vol9" and a concrete body. -/
theorem updateDeletePathTargetApp :
    (updateStorageHandler demoTv okActs "vol9" (.ok { size := some 5 })).2 =
      [ActionCall.update "vol9" { size := some 5 }] ∧
    (updateStorageHandler demoTv okActs "vol9" (.ok { size := some 5 })).1 =
      { status := 202, body := .empty } :=
  ⟨(updateDeletePathTarget demoTv okActs "vol9" { size := some 5 }).1,
   (updateDeletePathTarget demoTv okActs "vol9" { size := some 5 }).2.2.1 rfl⟩

/-- C8: the list handler invokes the list action, which takes no
parameters, exactly once; on success it responds 200 with exactly the
returned storage sequence, and on failure with the translator's
status/body pair. -/
theorem listHandlerSpec (tv : TranslateValidate) (acts : StorageActions) :
    ((getStoragesHandler tv acts).2 = [ActionCall.getAll]) ∧
    (∀ ss, acts.getStorages = .ok ss →
      getStoragesHandler tv acts =
        ({ status := 200, body := .storages ss }, [ActionCall.getAll])) ∧
    ∀ e, acts.getStorages = .error e →
      getStoragesHandler tv acts =
        ({ status := (tv.handleError e).1, body := .err (tv.handleError e).2 },
         [ActionCall.getAll]) := by
  refine ⟨?_, ?_, ?_⟩
  · cases h : acts.getStorages <;> simp [getStoragesHandler, h]
  · intro ss h; simp [getStoragesHandler, h]
  · intro e h; simp [getStoragesHandler, h]

/-- C8 witness: `listHandlerSpec` at a concrete translator and an action
layer whose list action returns one storage. -/
theorem listHandlerSpecApp :
    getStoragesHandler demoTv okActs =
      ({ status := 200, body := .storages [{ name := "a", size := 1 }] },
       [ActionCall.getAll]) :=
  (listHandlerSpec demoTv okActs).2.1 [{ name := "a", size := 1 }] rfl

/-- C9: the update and delete handlers perform no domain writes of their
own: their entire domain interaction is at most the single delegated
action call (exactly one for delete, and one for update once the body
binds), so when that call fails the request's only effect at this layer
is the translated error response. -/
theorem updateDeleteAtomic (tv : TranslateValidate) (acts : StorageActions)
    (pathName : String) (body : Except String UpdateStorageRequest) :
    ((updateStorageHandler tv acts pathName body).2.length ≤ 1) ∧
    ((deleteStorageHandler tv acts pathName).2.length = 1) ∧
    (∀ req e, acts.updateStorage pathName req = .error e →
      updateStorageHandler tv acts pathName (.ok req) =
        ({ status := (tv.handleError e).1, body := .err (tv.handleError e).2 },
         [ActionCall.update pathName req])) ∧
    ∀ e, acts.deleteStorage pathName = .error e →
      deleteStorageHandler tv acts pathName =
        ({ status := (tv.handleError e).1, body := .err (tv.handleError e).2 },
         [ActionCall.delete pathName]) := by
  refine ⟨?_, ?_, ?_, ?_⟩
  · cases body with
    | error e => simp [updateStorageHandler]
    | ok req => cases h : acts.updateStorage pathName req <;>
        simp [updateStorageHandler, h]
  · cases h : acts.deleteStorage pathName <;> simp [deleteStorageHandler, h]
  · intro req e h; simp [updateStorageHandler, h]
  · intro e h; simp [deleteStorageHandler, h]

/-- C9 witness: `updateDeleteAtomic` at a concrete translator and an
all-rejecting action layer: a failing update yields only the translated
error and the single delegated call. -/
theorem updateDeleteAtomicApp :
    updateStorageHandler demoTv failActs "vol9" (.ok { size := none }) =
      ({ status := 500, body := .err "not found" },
       [ActionCall.update "vol9" { size := none }]) :=
  (updateDeleteAtomic demoTv failActs "vol9" (.ok { size := none })).2.2.1
    { size := none } "not found" rfl

end VolumeRouter
